import Mathlib

/-!
Formal model of the yakyuu play-by-play ingestion and aggregation pipeline.

The definitions below are shallow embeddings of:
- `Final/imports/eventfiles.py` (result-text interpretation, event-row and
  event-table extraction, table classification, pitching announcements, the
  chronology loop of `parse_playbyplay_from_url`, and `upsert_events`);
- `backups/9-30/Final/event_aggregator.py` and
  `backups/9-30/Final/pitcher_event_aggregator.py` (the per-game batting and
  pitching rollups).

HTML cells and tables are modelled by their observable content: the stripped
text, and the href/text of contained player links.  Python dictionaries whose
consumers read every key through `.get(k, 0)` are modelled as total records
with zero defaults.  SQL tables are modelled as Lean lists; `UPDATE ... WHERE`
is a `List.map` over rows and `DELETE ... WHERE` a `List.filter`.
-/

namespace Yakyuu

/-! ## String utilities mirroring the Python regex/str operations used -/

/-- `subLMem pat s` is true when `pat` occurs as a contiguous sublist of `s`. -/
def subLMem (pat : List Char) : List Char → Bool
  | [] => pat.isEmpty
  | c :: cs => pat.isPrefixOf (c :: cs) || subLMem pat cs

/-- `hasSub s pat` models Python `pat in s` (substring containment). -/
def hasSub (s pat : String) : Bool :=
  subLMem pat.toList s.toList

/-- Maximal prefix of decimal digits, models the greedy `\d+`. -/
def digitsTake : List Char → List Char
  | [] => []
  | c :: cs => if c.isDigit then c :: digitsTake cs else []

/-- Decimal value of a digit list, models Python `int(...)` on a digit group. -/
def natOfDigits (l : List Char) : Nat :=
  l.foldl (fun a c => a * 10 + (c.toNat - 48)) 0

/-- `searchPat pre suf s` models `re.search(pre + r"(\d+)" + suf, s)`:
the leftmost position where the literal `pre`, then one or more digits
(greedy), then the literal `suf` match; returns the digit group. -/
def searchPat (pre suf : List Char) : List Char → Option (List Char)
  | [] => none
  | c :: cs =>
    if pre.isPrefixOf (c :: cs) then
      let rest := (c :: cs).drop pre.length
      let d := digitsTake rest
      if !d.isEmpty && suf.isPrefixOf (rest.drop d.length) then some d
      else searchPat pre suf cs
    else searchPat pre suf cs

/-- Index of the first occurrence of `pat` in `s`, models Python `str.find`
(`-1` when absent). -/
def strFindAux (pat : List Char) : List Char → Option Nat
  | [] => if pat.isEmpty then some 0 else none
  | c :: cs =>
    if pat.isPrefixOf (c :: cs) then some 0
    else (strFindAux pat cs).map (· + 1)

def strFind (s pat : List Char) : Int :=
  match strFindAux pat s with
  | some n => (n : Int)
  | none => -1

/-- Models `re.search(r"打点(\d+)", t)` returning the parsed RBI count. -/
def findRbi (s : List Char) : Option Nat :=
  (searchPat ['打', '点'] [] s).map natOfDigits

/-- Models Python `str.strip()`: drop whitespace from both ends. -/
def pyStrip (s : String) : String :=
  String.mk
    (((s.toList.dropWhile Char.isWhitespace).reverse.dropWhile
        Char.isWhitespace).reverse)

/-- Models Python `str.replace(pat, "")` for a non-empty `pat`: delete every
occurrence of `pat`, scanning left to right.  The fuel argument (instantiated
with the list length, enough for the scan) keeps the recursion structural. -/
def removeSubFuel (pat : List Char) : Nat → List Char → List Char
  | 0, s => s
  | _ + 1, [] => []
  | fuel + 1, c :: cs =>
    if !pat.isEmpty && pat.isPrefixOf (c :: cs) then
      removeSubFuel pat fuel ((c :: cs).drop pat.length)
    else c :: removeSubFuel pat fuel cs

def removeSub (pat s : List Char) : List Char :=
  removeSubFuel pat s.length s

/-- Models Python `str.split(sep)` for a one-character separator. -/
def splitOnChar (sep : Char) : List Char → List (List Char)
  | [] => [[]]
  | c :: cs =>
    let r := splitOnChar sep cs
    if c = sep then [] :: r
    else
      match r with
      | [] => [[c]]
      | x :: xs => (c :: x) :: xs

/-- Models Python `int(...)` on an already-stripped token: an optional sign
followed by one or more digits. -/
def pyToInt (s : String) : Option Int :=
  let digitsToNat : List Char → Option Nat := fun l =>
    if !l.isEmpty && l.all Char.isDigit then some (natOfDigits l) else none
  match s.toList with
  | '-' :: rest => (digitsToNat rest).map (fun n => -(n : Int))
  | '+' :: rest => (digitsToNat rest).map (fun n => (n : Int))
  | l => (digitsToNat l).map (fun n => (n : Int))

/-! ## `parse_result` (eventfiles.py lines 99-160) -/

/-- The outcome-flag dictionary initialized at the top of `parse_result`;
all fields default to `0`, so the bare `{}` returned for empty input is
observationally the same record (every consumer reads via `.get(k, 0)`). -/
structure ResultFlags where
  h : Nat := 0
  rbi : Nat := 0
  e1b : Nat := 0  -- DB column "1b"
  e2b : Nat := 0  -- DB column "2b"
  e3b : Nat := 0  -- DB column "3b"
  hr : Nat := 0
  gb : Nat := 0
  fb : Nat := 0
  k : Nat := 0
  roe : Nat := 0
  bb : Nat := 0
  hbp : Nat := 0
  gdp : Nat := 0
  sac : Nat := 0
deriving DecidableEq, Repr

/-- The primary if/elif chain of `parse_result` (first match wins). -/
def primary (t : String) : ResultFlags :=
  if hasSub t "三振" || hasSub t "K" || hasSub t "振り逃げ" then { k := 1 }
  else if hasSub t "四球" || hasSub t "フォアボール" || hasSub t "BB" then { bb := 1 }
  else if hasSub t "死球" || hasSub t "デッドボール" || hasSub t "HBP" then { hbp := 1 }
  else if hasSub t "犠打" || hasSub t "SH" || hasSub t "犠牲" then { sac := 1 }
  else if hasSub t "犠飛" || hasSub t "SF" then { sac := 1, rbi := 1 }
  else if hasSub t "内野安打" then { h := 1, e1b := 1 }
  else if hasSub t "安打" || hasSub t "ヒット" then { h := 1, e1b := 1 }
  else if hasSub t "二塁打" || hasSub t "ツーベース" then { h := 1, e2b := 1 }
  else if hasSub t "三塁打" || hasSub t "スリーベース" then { h := 1, e3b := 1 }
  else if hasSub t "本塁打" || hasSub t "ホームラン" then { h := 1, hr := 1, rbi := 1 }
  else if hasSub t "併殺" || hasSub t "併殺打" || hasSub t "DP" then { gdp := 1 }
  else if hasSub t "ゴロ" then { gb := 1 }
  else if hasSub t "フライ" then { fb := 1 }
  else {}

/-- The independent error post-check of `parse_result`. -/
def withError (t : String) (r : ResultFlags) : ResultFlags :=
  if hasSub t "エラー" then { r with roe := 1 }
  else if hasSub t "野選" then { r with roe := 1 }
  else r

/-- The independent explicit-RBI post-check of `parse_result`. -/
def withRbi (t : String) (r : ResultFlags) : ResultFlags :=
  match findRbi t.toList with
  | some n => { r with rbi := n }
  | none => r

/-- `parse_result` from eventfiles.py: empty text returns the bare `{}`
(all-zero record), otherwise the stripped text runs through the primary
chain and both post-checks. -/
def parse_result (result_text : String) : ResultFlags :=
  if result_text = "" then {}
  else
    let t := pyStrip result_text
    withRbi t (withError t (primary t))

/-! ## Small cell-level parsers (eventfiles.py lines 19-97) -/

/-- `extract_player_id_from_link` (lines 19-38): four regex patterns tried in
order against the link href; the Python `if not link` guard is the `none`
case. -/
def extract_player_id_from_link (link : Option String) : Option String :=
  match link with
  | none => none
  | some href =>
    let s := href.toList
    match searchPat "/players/".toList ".html".toList s with
    | some d => some (String.mk d)
    | none =>
      match searchPat "/player/".toList [] s with
      | some d => some (String.mk d)
      | none =>
        match searchPat "/players/".toList [] s with
        | some d => some (String.mk d)
        | none =>
          match searchPat "/player/".toList ".html".toList s with
          | some d => some (String.mk d)
          | none => none

/-- `parse_count` (lines 59-75): strip the locale qualifier より, split on
a dash, require two integer parts, reformat. -/
def parse_count (count_text : String) : Option String :=
  if count_text = "" || pyStrip count_text = "" then none
  else
    let t := pyStrip (String.mk (removeSub "より".toList count_text.toList))
    match (splitOnChar '-' t.toList).map String.mk with
    | [a, b] =>
      match pyToInt a, pyToInt b with
      | some balls, some strikes =>
        some (toString balls ++ "-" ++ toString strikes)
      | _, _ => none
    | _ => none

/-- `parse_on_base` (lines 77-97): direct substring mapping, multi-runner
states checked before single-runner states. -/
def parse_on_base (bases_text : String) : Option String :=
  if bases_text = "" then none
  else
    let t := pyStrip bases_text
    if hasSub t "満塁" then some "123B"
    else if hasSub t "1・2塁" then some "12B"
    else if hasSub t "1・3塁" then some "13B"
    else if hasSub t "2・3塁" then some "23B"
    else if hasSub t "1塁" then some "1B"
    else if hasSub t "2塁" then some "2B"
    else if hasSub t "3塁" then some "3B"
    else none

/-! ## Event extraction (eventfiles.py lines 162-244) -/

/-- One table cell: its stripped text and the href of its first contained
player link (if any), the two observations `parse_event_row` makes of a
BeautifulSoup cell. -/
structure Cell where
  text : String
  link : Option String
deriving DecidableEq, Repr

/-- One plate-appearance event row as written to the `event` table. -/
structure Event where
  game_id : String
  batter_player_id : String
  pitcher_player_id : Option String
  inning : Option String
  team : Option String
  out : Nat
  on_base : Option String
  count : Option String
  h : Nat
  rbi : Nat
  e1b : Nat  -- DB column "1b"
  e2b : Nat  -- DB column "2b"
  e3b : Nat  -- DB column "3b"
  hr : Nat
  gb : Nat
  fb : Nat
  k : Nat
  roe : Nat
  bb : Nat
  hbp : Nat
  gdp : Nat
  sac : Nat
deriving DecidableEq, Repr

/-- Text of cell `i`, `""` when the cell is absent (the Python code guards
each access with a length test and falls back to `""`). -/
def cellText (cells : List Cell) (i : Nat) : String :=
  ((cells[i]?).map (·.text)).getD ""

/-- The batter-id extraction step of `parse_event_row`: first link of
`cells[2]`, run through `extract_player_id_from_link`. -/
def batterIdOf (cells : List Cell) : Option String :=
  match cells[2]? with
  | some c => extract_player_id_from_link c.link
  | none => none

/-- The outcome-text cell of a row (`cells[4]` when present, else `""`). -/
def resultTextOf (cells : List Cell) : String :=
  cellText cells 4

/-- `parse_event_row` (lines 162-230). Rows with fewer than 4 cells, rows
whose outcome text marks an early stop/substitution, and rows with no
identifiable batter return `none`. -/
def parse_event_row (cells : List Cell) (game_id : String)
    (current_pitcher_id current_inning current_team_code : Option String) :
    Option Event :=
  if cells.length < 4 then none
  else
    let out_text := cellText cells 0
    let bases_text := cellText cells 1
    let count_text := cellText cells 3
    let result_text := resultTextOf cells
    if hasSub result_text "途中終了" || hasSub result_text "途中交代" then none
    else
      match batterIdOf cells with
      | none => none
      | some batter_id =>
        let out_count :=
          if out_text = "" then 0
          else
            match searchPat [] "アウト".toList out_text.toList with
            | some d => natOfDigits d
            | none => 0
        let r := parse_result result_text
        some {
          game_id := game_id
          batter_player_id := batter_id
          pitcher_player_id := current_pitcher_id
          inning := current_inning
          team := current_team_code
          out := out_count
          on_base := parse_on_base bases_text
          count := parse_count count_text
          h := r.h, rbi := r.rbi
          e1b := r.e1b, e2b := r.e2b, e3b := r.e3b, hr := r.hr
          gb := r.gb, fb := r.fb, k := r.k, roe := r.roe
          bb := r.bb, hbp := r.hbp, gdp := r.gdp, sac := r.sac }

/-- `parse_event_table` (lines 232-244): rows with at least 3 cells are fed
to `parse_event_row`; successfully parsed rows are collected in row order. -/
def parse_event_table (rows : List (List Cell)) (game_id : String)
    (current_pitcher_id current_inning current_team_code : Option String) :
    List Event :=
  rows.filterMap (fun cells =>
    if 3 ≤ cells.length then
      parse_event_row cells game_id current_pitcher_id current_inning
        current_team_code
    else none)

/-! ## Table classification and pitching announcements
(eventfiles.py lines 246-301) -/

/-- One player link inside a table: its stripped text and href. -/
structure PlayerLink where
  text : String
  href : String
deriving DecidableEq, Repr

/-- One table block: its flattened stripped text, the links it contains in
document order, and its rows (each a list of cells). -/
structure TableData where
  text : String
  links : List PlayerLink
  rows : List (List Cell)
deriving DecidableEq, Repr

inductive TableType where
  | INNING
  | PITCHING
  | EVENT
  | UNKNOWN
deriving DecidableEq, Repr

/-- `classify_table` (lines 246-273), rule precedence preserved. -/
def classify_table (t : TableData) : TableType :=
  if hasSub t.text "回表" || hasSub t.text "回裏" then .INNING
  else if hasSub t.text "投手" then .PITCHING
  else if !t.links.isEmpty &&
      !(hasSub t.text "投手" && t.links.length == 1) then .EVENT
  else if hasSub t.text "攻撃" && hasSub t.text "回" then .INNING
  else if (searchPat [] "回表".toList t.text.toList).isSome ||
      (searchPat [] "回裏".toList t.text.toList).isSome then .INNING
  else .UNKNOWN

/-- `map_inning_notation` (lines 40-57): renders `(\d+)回表` as `"<n>T"` /
away, `(\d+)回裏` as `"<n>B"` / home. -/
def map_inning_mark (t : String) : Option (String × String) :=
  if t = "" then none
  else if hasSub t "回表" then
    match searchPat [] "回表".toList t.toList with
    | some d => some (toString (natOfDigits d) ++ "T", "away")
    | none => none
  else if hasSub t "回裏" then
    match searchPat [] "回裏".toList t.toList with
    | some d => some (toString (natOfDigits d) ++ "B", "home")
    | none => none
  else none

/-- `parse_pitching_announcement` (lines 275-301).  The starter branch scans
links for one whose href mentions `/player`; the change branch returns the
first link whose text position in the table text is greater than the arrow
position (Python `str.find`, `-1` when absent). -/
def parse_pitching_announcement (t : TableData) : Option String :=
  let txt := t.text
  let startPid : Option String :=
    if hasSub txt "先発投手" then
      t.links.findSome? (fun l =>
        if hasSub l.href "/player" then extract_player_id_from_link (some l.href)
        else none)
    else none
  match startPid with
  | some pid => some pid
  | none =>
    if hasSub txt "投手交代" then
      let arrowPos := strFind txt.toList ['→']
      t.links.findSome? (fun l =>
        if arrowPos < strFind txt.toList l.text.toList then
          extract_player_id_from_link (some l.href)
        else none)
    else none

/-! ## Chronology state machine (eventfiles.py lines 303-439) -/

/-- One document node of the play-by-play page in document order. -/
inductive Element where
  | header (text : String)
  | table (t : TableData)
deriving DecidableEq, Repr

/-- The mutable loop variables of `parse_playbyplay_from_url`. -/
structure LoopState where
  current_inning : Option String
  current_team : Option String
  top_inning_pitcher : Option String
  bottom_inning_pitcher : Option String
  all_events : List Event
deriving DecidableEq, Repr

def initLoopState : LoopState := ⟨none, none, none, none, []⟩

/-- `get_batting_team_code` (lines 354-359). -/
def get_batting_team_code (inning : Option String)
    (away_code home_code : String) : Option String :=
  match inning with
  | none => none
  | some inn =>
    if inn = "" then none
    else if hasSub inn "T" then some away_code
    else if hasSub inn "B" then some home_code
    else none

/-- The `current_pitcher_id` selection repeated in both table branches of the
loop: top-inning pitcher when the inning tag contains `T`, bottom-inning
pitcher when it contains `B`. -/
def pitcherForInning (st : LoopState) : Option String :=
  match st.current_inning with
  | none => none
  | some inn =>
    if inn = "" then none
    else if hasSub inn "T" then st.top_inning_pitcher
    else if hasSub inn "B" then st.bottom_inning_pitcher
    else none

/-- The body of the element loop (lines 363-437): headers update the inning
context; PITCHING tables may update a pitcher slot (only under an inning
context) and are also scanned for event rows; EVENT tables are scanned for
event rows; other tables are skipped. -/
def processElement (away_code home_code game_id : String)
    (st : LoopState) (e : Element) : LoopState :=
  match e with
  | .header txt =>
    match map_inning_mark txt with
    | some (inn, team) =>
      { st with current_inning := some inn, current_team := some team }
    | none => st
  | .table tbl =>
    match classify_table tbl with
    | .PITCHING =>
      let st1 :=
        match parse_pitching_announcement tbl with
        | some pid =>
          match st.current_inning with
          | some inn =>
            if inn = "" then st
            else if hasSub inn "T" then
              { st with top_inning_pitcher := some pid }
            else if hasSub inn "B" then
              { st with bottom_inning_pitcher := some pid }
            else st
          | none => st
        | none => st
      let pid := pitcherForInning st1
      let tm := get_batting_team_code st1.current_inning away_code home_code
      let evs := parse_event_table tbl.rows game_id pid st1.current_inning tm
      { st1 with all_events := st1.all_events ++ evs }
    | .EVENT =>
      let pid := pitcherForInning st
      let tm := get_batting_team_code st.current_inning away_code home_code
      let evs := parse_event_table tbl.rows game_id pid st.current_inning tm
      { st with all_events := st.all_events ++ evs }
    | _ => st

/-- The whole element loop of `parse_playbyplay_from_url` over one game's
block stream. -/
def parse_playbyplay (away_code home_code game_id : String)
    (elements : List Element) : LoopState :=
  elements.foldl (processElement away_code home_code game_id) initLoopState

/-! ## Event store and rollups
(`upsert_events`, event_aggregator.py, pitcher_event_aggregator.py) -/

/-- One row of the `batting` table: lineup metadata written by the lineup
parser plus the summary counters written by the batting rollup. -/
structure BattingRow where
  game_id : String
  player_id : String
  team : String
  lineup_position : Nat
  position : String
  pa : Nat
  ab : Int
  b_h : Nat
  b_1b : Nat
  b_2b : Nat
  b_3b : Nat
  b_hr : Nat
  b_rbi : Nat
  b_gb : Nat
  b_fb : Nat
  b_k : Nat
  b_roe : Nat
  b_bb : Nat
  b_hbp : Nat
  b_gdp : Nat
  b_sac : Nat
deriving DecidableEq, Repr

/-- One row of the `pitching` table: decision/workload metadata plus the
event-derived counters written by the pitching rollup. -/
structure PitchingRow where
  game_id : String
  player_id : String
  team : String
  win : Nat
  loss : Nat
  save : Nat
  hold : Nat
  start : Nat
  finish : Nat
  ip : Int
  pitches_thrown : Nat
  er : Nat
  r : Nat
  batters_faced : Nat
  wild_pitch : Nat
  balk : Nat
  p_h : Nat
  p_1b : Nat
  p_2b : Nat
  p_3b : Nat
  p_hr : Nat
  p_gb : Nat
  p_fb : Nat
  p_k : Nat
  p_roe : Nat
  p_bb : Nat
  p_hbp : Nat
  p_gdp : Nat
  p_sac : Nat
deriving DecidableEq, Repr

/-- The relational store as seen by the ingestion pipeline. -/
structure Store where
  events : List Event
  batting : List BattingRow
  pitching : List PitchingRow
deriving DecidableEq, Repr

/-- `upsert_events` (eventfiles.py lines 441-479): an empty list is a no-op;
otherwise all events of the first event's game are deleted and the new
events inserted. -/
def upsert_events (store : List Event) (events : List Event) : List Event :=
  match events with
  | [] => store
  | e :: _ => store.filter (fun x => !(x.game_id == e.game_id)) ++ events

/-- The `GROUP BY game_id, batter_player_id` group of one (game, batter). -/
def batGroup (evs : List Event) (g b : String) : List Event :=
  evs.filter (fun e => e.game_id == g && e.batter_player_id == b)

/-- Whether the (game, batter) key appears in the aggregated data, i.e. the
group is non-empty. -/
def hasBatEvents (evs : List Event) (g b : String) : Bool :=
  evs.any (fun e => e.game_id == g && e.batter_player_id == b)

/-- The value dictionary `aggregate_events_by_game_and_batter` builds for one
(game, batter) key (event_aggregator.py lines 71-100): `COUNT(*)` plate
appearances, `SUM` of each flag, derived total hits and at-bats. -/
structure BatAgg where
  pa : Nat
  ab : Int
  b_h : Nat
  b_1b : Nat
  b_2b : Nat
  b_3b : Nat
  b_hr : Nat
  b_rbi : Nat
  b_gb : Nat
  b_fb : Nat
  b_k : Nat
  b_roe : Nat
  b_bb : Nat
  b_hbp : Nat
  b_gdp : Nat
  b_sac : Nat
deriving DecidableEq, Repr

def aggregate_batting (evs : List Event) (g b : String) : BatAgg :=
  let grp := batGroup evs g b
  let pa := grp.length
  let s1b := (grp.map (·.e1b)).sum
  let s2b := (grp.map (·.e2b)).sum
  let s3b := (grp.map (·.e3b)).sum
  let shr := (grp.map (·.hr)).sum
  let srbi := (grp.map (·.rbi)).sum
  let sgb := (grp.map (·.gb)).sum
  let sfb := (grp.map (·.fb)).sum
  let sk := (grp.map (·.k)).sum
  let sroe := (grp.map (·.roe)).sum
  let sbb : Nat := (grp.map (·.bb)).sum
  let shbp : Nat := (grp.map (·.hbp)).sum
  let sgdp : Nat := (grp.map (·.gdp)).sum
  let ssac : Nat := (grp.map (·.sac)).sum
  { pa := pa
    ab := (pa : Int) - ((sbb : Int) + (shbp : Int) + (ssac : Int))
    b_h := s1b + s2b + s3b + shr
    b_1b := s1b, b_2b := s2b, b_3b := s3b, b_hr := shr
    b_rbi := srbi, b_gb := sgb, b_fb := sfb, b_k := sk
    b_roe := sroe, b_bb := sbb, b_hbp := shbp, b_gdp := sgdp, b_sac := ssac }

/-- The effect of `update_batting_stats` (event_aggregator.py lines 142-181)
on one batting row: rows whose (game, player) key has aggregated event data
get their counters overwritten with the aggregated values; all other rows
(including placeholder rows of players with zero events) are not written. -/
def updateBattingRow (evs : List Event) (gid : String) (r : BattingRow) :
    BattingRow :=
  if r.game_id == gid && hasBatEvents evs gid r.player_id then
    let a := aggregate_batting evs gid r.player_id
    { r with pa := a.pa, ab := a.ab, b_h := a.b_h
             b_1b := a.b_1b, b_2b := a.b_2b, b_3b := a.b_3b, b_hr := a.b_hr
             b_rbi := a.b_rbi, b_gb := a.b_gb, b_fb := a.b_fb, b_k := a.b_k
             b_roe := a.b_roe, b_bb := a.b_bb, b_hbp := a.b_hbp
             b_gdp := a.b_gdp, b_sac := a.b_sac }
  else r

/-- `update_batting_stats` restricted to one game id, as invoked with
`game_ids=[gid]` after ingesting that game. -/
def update_batting_stats (gid : String) (s : Store) : Store :=
  { s with batting := s.batting.map (updateBattingRow s.events gid) }

/-- The `GROUP BY game_id, pitcher_player_id` group of one (game, pitcher);
the pitcher column is nullable, so the key is an `Option`-valued match. -/
def pitGroup (evs : List Event) (g p : String) : List Event :=
  evs.filter (fun e => e.game_id == g && e.pitcher_player_id == some p)

def hasPitEvents (evs : List Event) (g p : String) : Bool :=
  evs.any (fun e => e.game_id == g && e.pitcher_player_id == some p)

/-- The value dictionary built per (game, pitcher) key
(pitcher_event_aggregator.py lines 71-93).  `pa_faced` is computed but never
written back by `update_pitching_stats`. -/
structure PitAgg where
  pa_faced : Nat
  p_h : Nat
  p_1b : Nat
  p_2b : Nat
  p_3b : Nat
  p_hr : Nat
  p_gb : Nat
  p_fb : Nat
  p_k : Nat
  p_roe : Nat
  p_bb : Nat
  p_hbp : Nat
  p_gdp : Nat
  p_sac : Nat
deriving DecidableEq, Repr

def aggregate_pitching (evs : List Event) (g p : String) : PitAgg :=
  let grp := pitGroup evs g p
  let s1b := (grp.map (·.e1b)).sum
  let s2b := (grp.map (·.e2b)).sum
  let s3b := (grp.map (·.e3b)).sum
  let shr := (grp.map (·.hr)).sum
  { pa_faced := grp.length
    p_h := s1b + s2b + s3b + shr
    p_1b := s1b, p_2b := s2b, p_3b := s3b, p_hr := shr
    p_gb := (grp.map (·.gb)).sum, p_fb := (grp.map (·.fb)).sum
    p_k := (grp.map (·.k)).sum, p_roe := (grp.map (·.roe)).sum
    p_bb := (grp.map (·.bb)).sum, p_hbp := (grp.map (·.hbp)).sum
    p_gdp := (grp.map (·.gdp)).sum, p_sac := (grp.map (·.sac)).sum }

/-- The effect of `update_pitching_stats`
(pitcher_event_aggregator.py lines 146-185) on one pitching row. -/
def updatePitchingRow (evs : List Event) (gid : String) (r : PitchingRow) :
    PitchingRow :=
  if r.game_id == gid && hasPitEvents evs gid r.player_id then
    let a := aggregate_pitching evs gid r.player_id
    { r with p_h := a.p_h
             p_1b := a.p_1b, p_2b := a.p_2b, p_3b := a.p_3b, p_hr := a.p_hr
             p_gb := a.p_gb, p_fb := a.p_fb, p_k := a.p_k, p_roe := a.p_roe
             p_bb := a.p_bb, p_hbp := a.p_hbp, p_gdp := a.p_gdp
             p_sac := a.p_sac }
  else r

def update_pitching_stats (gid : String) (s : Store) : Store :=
  { s with pitching := s.pitching.map (updatePitchingRow s.events gid) }

/-- Ingesting one game's freshly parsed events: replace the game's events,
then run both rollups for that game (the `aggregate_batch` flow). -/
def ingest_game (gid : String) (evs : List Event) (s : Store) : Store :=
  update_pitching_stats gid
    (update_batting_stats gid { s with events := upsert_events s.events evs })

/-! ## Auxiliary definitions used by the verification statements -/

/-- `noKnownPattern t` holds when the stripped outcome text matches none of
the patterns `parse_result` knows: no primary-category keyword, no error
keyword, and no explicit RBI token. -/
def noKnownPattern (t : String) : Bool :=
  !(hasSub t "三振" || hasSub t "K" || hasSub t "振り逃げ" ||
    hasSub t "四球" || hasSub t "フォアボール" || hasSub t "BB" ||
    hasSub t "死球" || hasSub t "デッドボール" || hasSub t "HBP" ||
    hasSub t "犠打" || hasSub t "SH" || hasSub t "犠牲" ||
    hasSub t "犠飛" || hasSub t "SF" ||
    hasSub t "内野安打" || hasSub t "安打" || hasSub t "ヒット" ||
    hasSub t "二塁打" || hasSub t "ツーベース" ||
    hasSub t "三塁打" || hasSub t "スリーベース" ||
    hasSub t "本塁打" || hasSub t "ホームラン" ||
    hasSub t "併殺" || hasSub t "併殺打" || hasSub t "DP" ||
    hasSub t "ゴロ" || hasSub t "フライ" ||
    hasSub t "エラー" || hasSub t "野選" ||
    !(findRbi t.toList == none))

/-- The specification's reading of the pitching-change extraction: the id of
the LAST player link whose text appears after the change delimiter.  Used
only to compare against the implemented behavior. -/
def spec_lastLinkAfterChange (t : TableData) : Option String :=
  t.links.reverse.findSome? (fun l =>
    if strFind t.text.toList ['→'] < strFind t.text.toList l.text.toList then
      extract_player_id_from_link (some l.href)
    else none)

/-- A pitching-change table with two player links after the arrow: the
outgoing pitcher 田中, then 鈴木 and 佐藤 both after the arrow. -/
def c9tbl : TableData :=
  { text := "投手交代田中→鈴木佐藤"
    links := [⟨"田中", "/players/1.html"⟩, ⟨"鈴木", "/players/2.html"⟩,
              ⟨"佐藤", "/players/3.html"⟩]
    rows := [] }

/-- An event row whose outcome text ボーク matches no known pattern. -/
def c3row : List Cell :=
  [⟨"0アウト", none⟩, ⟨"", none⟩, ⟨"鈴木", some "/players/123.html"⟩,
   ⟨"1-1", none⟩, ⟨"ボーク", none⟩]

/-- The event `parse_event_row` emits for `c3row`. -/
def c3event : Event :=
  { game_id := "G1", batter_player_id := "123", pitcher_player_id := none
    inning := none, team := none, out := 0, on_base := none
    count := some "1-1", h := 0, rbi := 0, e1b := 0, e2b := 0, e3b := 0
    hr := 0, gb := 0, fb := 0, k := 0, roe := 0, bb := 0, hbp := 0
    gdp := 0, sac := 0 }

/-- A row with exactly 3 populated cells, including an identifiable batter. -/
def c7row : List Cell :=
  [⟨"1アウト", none⟩, ⟨"1塁", none⟩, ⟨"鈴木", some "/players/45.html"⟩]

/-- A full 5-cell row with an identifiable batter and no outs token. -/
def c7good : List Cell :=
  [⟨"なし", none⟩, ⟨"", none⟩, ⟨"山田", some "/players/77.html"⟩,
   ⟨"2-2", none⟩, ⟨"遊ゴロ", none⟩]

/-- A starting-pitcher announcement table. -/
def c8tbl : TableData :=
  { text := "先発投手中村"
    links := [⟨"中村", "/players/9.html"⟩]
    rows := [] }

/-- Sample data: two events for batter B1 in game G (a single and a walk). -/
def wEvent1 : Event :=
  { game_id := "G", batter_player_id := "B1", pitcher_player_id := some "P"
    inning := some "1T", team := some "A", out := 0, on_base := none
    count := none, h := 1, rbi := 0, e1b := 1, e2b := 0, e3b := 0, hr := 0
    gb := 0, fb := 0, k := 0, roe := 0, bb := 0, hbp := 0, gdp := 0, sac := 0 }

def wEvent2 : Event :=
  { wEvent1 with h := 0, e1b := 0, bb := 1 }

/-- A zeroed placeholder batting row for B1 in game G. -/
def wRow : BattingRow :=
  { game_id := "G", player_id := "B1", team := "T", lineup_position := 1
    position := "C", pa := 0, ab := 0, b_h := 0, b_1b := 0, b_2b := 0
    b_3b := 0, b_hr := 0, b_rbi := 0, b_gb := 0, b_fb := 0, b_k := 0
    b_roe := 0, b_bb := 0, b_hbp := 0, b_gdp := 0, b_sac := 0 }

def wStore : Store := ⟨[wEvent1, wEvent2], [wRow], []⟩

/-- The batting row for B1 after the rollup of `wStore`. -/
def wRowUpd : BattingRow :=
  { wRow with pa := 2, ab := 1, b_h := 1, b_1b := 1, b_bb := 1 }

/-- A stale batting summary row for player p1 in game G with nonzero
counters and no corresponding events. -/
def c4stale : BattingRow :=
  { wRow with player_id := "p1", pa := 7, ab := 6, b_h := 3, b_1b := 3 }

/-- A placeholder batting row for player p2 in game G. -/
def c4row2 : BattingRow := { wRow with player_id := "p2" }

/-- One event for p2 in game G. -/
def c4ev : Event := { wEvent1 with batter_player_id := "p2" }

def c4store : Store := ⟨[c4ev], [c4stale, c4row2], []⟩

/-- Prior store state for the C2 scenario: a stale summary row for p1, a
placeholder for p2, and no stored events. -/
def c2stale : BattingRow :=
  { wRow with player_id := "p1", pa := 5, ab := 5, b_h := 2, b_1b := 2 }

def c2row2 : BattingRow := { wRow with player_id := "p2" }

def c2ev : Event := { wEvent1 with batter_player_id := "p2" }

def c2store : Store := ⟨[], [c2stale, c2row2], []⟩

/-! ## Helper lemmas -/

theorem sum_map_add {α : Type} (l : List α) (f g : α → Nat) :
    (l.map (fun x => f x + g x)).sum = (l.map f).sum + (l.map g).sum := by
  induction l with
  | nil => rfl
  | cons a t ih => simp [List.map_cons, List.sum_cons, ih]; omega

theorem findSome_first {α β : Type} (f : α → Option β) :
    ∀ (l : List α) (b : β), l.findSome? f = some b →
      ∃ pre x post, l = pre ++ x :: post ∧ f x = some b ∧
        ∀ y ∈ pre, f y = none := by
  intro l
  induction l with
  | nil => intro b hb; simp [List.findSome?] at hb
  | cons a t ih =>
    intro b hb
    rw [List.findSome?_cons] at hb
    cases hfa : f a with
    | some v =>
      rw [hfa] at hb
      refine ⟨[], a, t, rfl, ?_, by simp⟩
      simpa [hfa] using hb
    | none =>
      rw [hfa] at hb
      obtain ⟨pre, x, post, heq, hx, hpre⟩ := ih b hb
      refine ⟨a :: pre, x, post, by rw [heq]; rfl, hx, ?_⟩
      intro y hy
      rcases List.mem_cons.mp hy with rfl | hy2
      · exact hfa
      · exact hpre y hy2

theorem withError_eq (t : String) (r : ResultFlags) :
    withError t r = r ∨ withError t r = { r with roe := 1 } := by
  unfold withError; split_ifs <;> simp

theorem withRbi_eq (t : String) (r : ResultFlags) :
    withRbi t r = r ∨ ∃ n, withRbi t r = { r with rbi := n } := by
  unfold withRbi
  cases findRbi t.toList <;> simp

/-- The primary chain yields exactly one of its fourteen branch records. -/
theorem primary_cases (t : String) :
    primary t = { k := 1 } ∨
    primary t = { bb := 1 } ∨
    primary t = { hbp := 1 } ∨
    primary t = { sac := 1 } ∨
    primary t = { sac := 1, rbi := 1 } ∨
    primary t = { h := 1, e1b := 1 } ∨
    primary t = { h := 1, e1b := 1 } ∨
    primary t = { h := 1, e2b := 1 } ∨
    primary t = { h := 1, e3b := 1 } ∨
    primary t = { h := 1, hr := 1, rbi := 1 } ∨
    primary t = { gdp := 1 } ∨
    primary t = { gb := 1 } ∨
    primary t = { fb := 1 } ∨
    primary t = ({} : ResultFlags) := by
  by_cases h1 : (hasSub t "三振" || hasSub t "K" || hasSub t "振り逃げ") = true
  · exact Or.inl (by unfold primary; rw [if_pos h1])
  by_cases h2 : (hasSub t "四球" || hasSub t "フォアボール" || hasSub t "BB") = true
  · exact Or.inr (Or.inl (by unfold primary; rw [if_neg h1, if_pos h2]))
  by_cases h3 : (hasSub t "死球" || hasSub t "デッドボール" || hasSub t "HBP") = true
  · exact Or.inr (Or.inr (Or.inl (by unfold primary; rw [if_neg h1, if_neg h2, if_pos h3])))
  by_cases h4 : (hasSub t "犠打" || hasSub t "SH" || hasSub t "犠牲") = true
  · exact Or.inr (Or.inr (Or.inr (Or.inl (by unfold primary; rw [if_neg h1, if_neg h2, if_neg h3, if_pos h4]))))
  by_cases h5 : (hasSub t "犠飛" || hasSub t "SF") = true
  · exact Or.inr (Or.inr (Or.inr (Or.inr (Or.inl (by unfold primary; rw [if_neg h1, if_neg h2, if_neg h3, if_neg h4, if_pos h5])))))
  by_cases h6 : hasSub t "内野安打" = true
  · exact Or.inr (Or.inr (Or.inr (Or.inr (Or.inr (Or.inl (by unfold primary; rw [if_neg h1, if_neg h2, if_neg h3, if_neg h4, if_neg h5, if_pos h6]))))))
  by_cases h7 : (hasSub t "安打" || hasSub t "ヒット") = true
  · exact Or.inr (Or.inr (Or.inr (Or.inr (Or.inr (Or.inr (Or.inl (by unfold primary; rw [if_neg h1, if_neg h2, if_neg h3, if_neg h4, if_neg h5, if_neg h6, if_pos h7])))))))
  by_cases h8 : (hasSub t "二塁打" || hasSub t "ツーベース") = true
  · exact Or.inr (Or.inr (Or.inr (Or.inr (Or.inr (Or.inr (Or.inr (Or.inl (by unfold primary; rw [if_neg h1, if_neg h2, if_neg h3, if_neg h4, if_neg h5, if_neg h6, if_neg h7, if_pos h8]))))))))
  by_cases h9 : (hasSub t "三塁打" || hasSub t "スリーベース") = true
  · exact Or.inr (Or.inr (Or.inr (Or.inr (Or.inr (Or.inr (Or.inr (Or.inr (Or.inl (by unfold primary; rw [if_neg h1, if_neg h2, if_neg h3, if_neg h4, if_neg h5, if_neg h6, if_neg h7, if_neg h8, if_pos h9])))))))))
  by_cases h10 : (hasSub t "本塁打" || hasSub t "ホームラン") = true
  · exact Or.inr (Or.inr (Or.inr (Or.inr (Or.inr (Or.inr (Or.inr (Or.inr (Or.inr (Or.inl (by unfold primary; rw [if_neg h1, if_neg h2, if_neg h3, if_neg h4, if_neg h5, if_neg h6, if_neg h7, if_neg h8, if_neg h9, if_pos h10]))))))))))
  by_cases h11 : (hasSub t "併殺" || hasSub t "併殺打" || hasSub t "DP") = true
  · exact Or.inr (Or.inr (Or.inr (Or.inr (Or.inr (Or.inr (Or.inr (Or.inr (Or.inr (Or.inr (Or.inl (by unfold primary; rw [if_neg h1, if_neg h2, if_neg h3, if_neg h4, if_neg h5, if_neg h6, if_neg h7, if_neg h8, if_neg h9, if_neg h10, if_pos h11])))))))))))
  by_cases h12 : hasSub t "ゴロ" = true
  · exact Or.inr (Or.inr (Or.inr (Or.inr (Or.inr (Or.inr (Or.inr (Or.inr (Or.inr (Or.inr (Or.inr (Or.inl (by unfold primary; rw [if_neg h1, if_neg h2, if_neg h3, if_neg h4, if_neg h5, if_neg h6, if_neg h7, if_neg h8, if_neg h9, if_neg h10, if_neg h11, if_pos h12]))))))))))))
  by_cases h13 : hasSub t "フライ" = true
  · exact Or.inr (Or.inr (Or.inr (Or.inr (Or.inr (Or.inr (Or.inr (Or.inr (Or.inr (Or.inr (Or.inr (Or.inr (Or.inl (by unfold primary; rw [if_neg h1, if_neg h2, if_neg h3, if_neg h4, if_neg h5, if_neg h6, if_neg h7, if_neg h8, if_neg h9, if_neg h10, if_neg h11, if_neg h12, if_pos h13])))))))))))))
  exact Or.inr (Or.inr (Or.inr (Or.inr (Or.inr (Or.inr (Or.inr (Or.inr (Or.inr (Or.inr (Or.inr (Or.inr (Or.inr (by unfold primary; rw [if_neg h1, if_neg h2, if_neg h3, if_neg h4, if_neg h5, if_neg h6, if_neg h7, if_neg h8, if_neg h9, if_neg h10, if_neg h11, if_neg h12, if_neg h13])))))))))))))

theorem primary_hit_inv (t : String) :
    (primary t).e1b + (primary t).e2b + (primary t).e3b + (primary t).hr ≤ 1 ∧
    ((primary t).h = 1 ↔
      (primary t).e1b + (primary t).e2b + (primary t).e3b + (primary t).hr = 1) := by
  rcases primary_cases t with h | h | h | h | h | h | h | h | h | h | h | h | h | h <;>
    rw [h] <;> decide

/-! ## Claim theorems -/

/-- C10: calling the event write operation with an empty event list performs
no store modification at all — the stored event list is returned unchanged,
nothing is deleted and nothing is inserted. -/
theorem c10_upsert_empty_is_noop (store : List Event) :
    upsert_events store [] = store := rfl

/-- C5: for every outcome text, at most one of the four hit-type flags is
set; the hit flag is set iff exactly one of them is set; the error
post-check sets `roe` without clearing the primary flags; and error can
co-occur with a hit flag (concrete instance 安打、エラー). -/
theorem c5_hit_type_mutual_exclusion :
    (∀ s : String,
      (parse_result s).e1b + (parse_result s).e2b + (parse_result s).e3b +
          (parse_result s).hr ≤ 1 ∧
      ((parse_result s).h = 1 ↔
        (parse_result s).e1b + (parse_result s).e2b + (parse_result s).e3b +
            (parse_result s).hr = 1)) ∧
    (∀ (t : String) (r : ResultFlags),
      (withError t r).h = r.h ∧ (withError t r).e1b = r.e1b ∧
      (withError t r).e2b = r.e2b ∧ (withError t r).e3b = r.e3b ∧
      (withError t r).hr = r.hr ∧ (withError t r).k = r.k ∧
      (withError t r).bb = r.bb ∧ (withError t r).gb = r.gb ∧
      (withError t r).fb = r.fb ∧ (withError t r).gdp = r.gdp ∧
      (withError t r).sac = r.sac ∧ (withError t r).hbp = r.hbp) ∧
    parse_result "安打、エラー" = { h := 1, e1b := 1, roe := 1 } := by
  refine ⟨?_, ?_, by decide⟩
  · intro s
    by_cases hs : s = ""
    · subst hs; decide
    · simp only [parse_result, if_neg hs]
      rcases withRbi_eq (pyStrip s) (withError (pyStrip s) (primary (pyStrip s))) with h1 | ⟨n, h1⟩ <;>
        rw [h1] <;>
        rcases withError_eq (pyStrip s) (primary (pyStrip s)) with h2 | h2 <;>
        rw [h2] <;>
        exact primary_hit_inv (pyStrip s)
  · intro t r
    unfold withError
    split_ifs <;> simp

/-- C6: the explicit RBI-count post-check overrides the primary category's
default for every outcome text; a home run without an explicit count keeps
the default RBI=1; and 二塁打、打点2 yields hit/double with 2 RBI and all
other hit-type flags 0. -/
theorem c6_rbi_override :
    (∀ (s : String) (n : Nat), findRbi (pyStrip s).toList = some n →
        (parse_result s).rbi = n) ∧
    parse_result "本塁打" = { h := 1, hr := 1, rbi := 1 } ∧
    parse_result "二塁打、打点2" = { h := 1, e2b := 1, rbi := 2 } := by
  refine ⟨?_, by decide, by decide⟩
  intro s n hf
  by_cases hs : s = ""
  · rw [hs] at hf
    have hnone : findRbi (pyStrip "").toList = none := by decide
    rw [hnone] at hf
    cases hf
  · simp only [parse_result, if_neg hs, withRbi, hf]

/-- Witness for `c6_rbi_override`: its first conjunct applied to the concrete
outcome text 打点4. -/
theorem c6_rbi_override_witness : (parse_result "打点4").rbi = 4 :=
  c6_rbi_override.1 "打点4" 4 (by decide)

/-- When the stripped outcome text matches no known pattern, `parse_result`
returns the all-zero record. -/
theorem parse_result_zero (s : String)
    (h : noKnownPattern (pyStrip s) = true) : parse_result s = {} := by
  by_cases hs : s = ""
  · simp [parse_result, hs]
  · have h' := h
    unfold noKnownPattern at h'
    rw [Bool.not_eq_true'] at h'
    simp only [Bool.or_eq_false_iff] at h'
    obtain ⟨⟨⟨⟨⟨⟨⟨⟨⟨⟨⟨⟨⟨⟨⟨⟨⟨⟨⟨⟨⟨⟨⟨⟨⟨⟨⟨⟨⟨⟨h1, h2⟩, h3⟩, h4⟩, h5⟩, h6⟩, h7⟩, h8⟩, h9⟩, h10⟩, h11⟩, h12⟩, h13⟩, h14⟩, h15⟩, h16⟩, h17⟩, h18⟩, h19⟩, h20⟩, h21⟩, h22⟩, h23⟩, h24⟩, h25⟩, h26⟩, h27⟩, h28⟩, h29⟩, h30⟩, h31⟩ := h'
    have hrbi : findRbi (pyStrip s).toList = none := by
      simpa using h31
    have hp : primary (pyStrip s) = {} := by
      unfold primary
      rw [if_neg (by simp [h1, h2, h3]), if_neg (by simp [h4, h5, h6]),
          if_neg (by simp [h7, h8, h9]), if_neg (by simp [h10, h11, h12]),
          if_neg (by simp [h13, h14]), if_neg (by simp [h15]),
          if_neg (by simp [h16, h17]), if_neg (by simp [h18, h19]),
          if_neg (by simp [h20, h21]), if_neg (by simp [h22, h23]),
          if_neg (by simp [h24, h25, h26]), if_neg (by simp [h27]),
          if_neg (by simp [h28])]
    have he : withError (pyStrip s) ({} : ResultFlags) = {} := by
      unfold withError
      rw [if_neg (by simp [h29]), if_neg (by simp [h30])]
    simp only [parse_result, if_neg hs]
    rw [hp, he]
    unfold withRbi
    rw [hrbi]

/-- C3 amended: rows whose outcome text carries an explicit stop/substitution
marker (途中終了 or 途中交代) are discarded, and rows with no identifiable
batter are discarded; but a row whose outcome text matches no known pattern
is NOT discarded — any event emitted for it carries an all-zero outcome-flag
vector. -/
theorem c3_unparsed_rows :
    (∀ (cells : List Cell) (gid : String) (pid inn tm : Option String),
        (hasSub (resultTextOf cells) "途中終了" ||
            hasSub (resultTextOf cells) "途中交代") = true →
        parse_event_row cells gid pid inn tm = none) ∧
    (∀ (cells : List Cell) (gid : String) (pid inn tm : Option String),
        batterIdOf cells = none →
        parse_event_row cells gid pid inn tm = none) ∧
    (∀ (cells : List Cell) (gid : String) (pid inn tm : Option String)
        (e : Event),
        parse_event_row cells gid pid inn tm = some e →
        noKnownPattern (pyStrip (resultTextOf cells)) = true →
        e.h = 0 ∧ e.rbi = 0 ∧ e.e1b = 0 ∧ e.e2b = 0 ∧ e.e3b = 0 ∧ e.hr = 0 ∧
        e.gb = 0 ∧ e.fb = 0 ∧ e.k = 0 ∧ e.roe = 0 ∧ e.bb = 0 ∧ e.hbp = 0 ∧
        e.gdp = 0 ∧ e.sac = 0) := by
  refine ⟨?_, ?_, ?_⟩
  · intro cells gid pid inn tm hstop
    simp [parse_event_row, hstop]
  · intro cells gid pid inn tm hb
    simp [parse_event_row, hb]
  · intro cells gid pid inn tm e hrow hnp
    simp only [parse_event_row] at hrow
    split at hrow
    · cases hrow
    · split at hrow
      · cases hrow
      · split at hrow
        · cases hrow
        · injection hrow with hrow
          subst hrow
          simp [parse_result_zero _ hnp]

/-- C3 counterexample: the outcome text ボーク matches no known pattern, yet
the row is not discarded — it is emitted as an event whose outcome-flag
vector is all zeros. -/
theorem c3_zero_flag_emission :
    noKnownPattern (pyStrip "ボーク") = true ∧
    parse_event_table [c3row] "G1" none none none = [c3event] ∧
    c3event.h = 0 ∧ c3event.rbi = 0 ∧ c3event.e1b = 0 ∧ c3event.e2b = 0 ∧
    c3event.e3b = 0 ∧ c3event.hr = 0 ∧ c3event.gb = 0 ∧ c3event.fb = 0 ∧
    c3event.k = 0 ∧ c3event.roe = 0 ∧ c3event.bb = 0 ∧ c3event.hbp = 0 ∧
    c3event.gdp = 0 ∧ c3event.sac = 0 := by decide

/-- Witness for `c3_unparsed_rows`: its third conjunct applied to the
concrete row `c3row` (outcome ボーク) and the event it emits. -/
theorem c3_unparsed_rows_witness :
    c3event.h = 0 ∧ c3event.rbi = 0 ∧ c3event.e1b = 0 ∧ c3event.e2b = 0 ∧
    c3event.e3b = 0 ∧ c3event.hr = 0 ∧ c3event.gb = 0 ∧ c3event.fb = 0 ∧
    c3event.k = 0 ∧ c3event.roe = 0 ∧ c3event.bb = 0 ∧ c3event.hbp = 0 ∧
    c3event.gdp = 0 ∧ c3event.sac = 0 :=
  c3_unparsed_rows.2.2 c3row "G1" none none none c3event (by decide)
    (by decide)

/-- C7 counterexample: a row with exactly 3 populated cells and an
identifiable batter yields no event at all — `parse_event_table` forwards
rows with at least 3 cells, but `parse_event_row` rejects any row with
fewer than 4 cells. -/
theorem c7_three_cell_row_dropped :
    c7row.length = 3 ∧ batterIdOf c7row = some "45" ∧
    parse_event_table [c7row] "G1" none none none = [] := by decide

/-- C7 amended: events are emitted in row order with no re-sorting; a row
with no identifiable batter is rejected; and every row with at least 4 cells,
no stop/substitution marker, and an identifiable batter yields exactly one
event, whose outs-before-play field defaults to 0 when the N-outs token is
absent or unparsed. -/
theorem c7_row_emission :
    (∀ (rows : List (List Cell)) (gid : String) (pid inn tm : Option String),
        parse_event_table rows gid pid inn tm =
          rows.filterMap (fun cells =>
            if 3 ≤ cells.length then parse_event_row cells gid pid inn tm
            else none)) ∧
    (∀ (cells : List Cell) (gid : String) (pid inn tm : Option String),
        batterIdOf cells = none →
        parse_event_row cells gid pid inn tm = none) ∧
    (∀ (cells : List Cell) (gid : String) (pid inn tm : Option String)
        (b : String), 4 ≤ cells.length →
        (hasSub (resultTextOf cells) "途中終了" ||
            hasSub (resultTextOf cells) "途中交代") = false →
        batterIdOf cells = some b →
        ∃ e, parse_event_row cells gid pid inn tm = some e ∧
          e.batter_player_id = b ∧
          (searchPat [] "アウト".toList (cellText cells 0).toList = none →
            e.out = 0)) := by
  refine ⟨fun _ _ _ _ _ => rfl, ?_, ?_⟩
  · intro cells gid pid inn tm hb
    simp [parse_event_row, hb]
  · intro cells gid pid inn tm b hlen hstop hb
    have hlt : ¬(cells.length < 4) := by omega
    simp only [parse_event_row, if_neg hlt, hstop, Bool.false_eq_true,
      if_false, hb]
    refine ⟨_, rfl, rfl, ?_⟩
    intro hout
    by_cases hempty : cellText cells 0 = ""
    · simp [hempty]
    · have hout2 : searchPat [] ['ア', 'ウ', 'ト'] (cellText cells 0).data =
          none := hout
      simp [hempty, hout2]

/-- Witness for `c7_row_emission`: its third conjunct applied to the 5-cell
row `c7good` whose outs cell carries no アウト token. -/
theorem c7_row_emission_witness :
    ∃ e, parse_event_row c7good "G1" none none none = some e ∧
      e.batter_player_id = "77" ∧
      (searchPat [] "アウト".toList (cellText c7good 0).toList = none →
        e.out = 0) :=
  c7_row_emission.2.2 c7good "G1" none none none "77" (by decide) (by decide)
    (by decide)

/-- One loop step preserves the empty inning/pitcher context as long as the
element is not an inning-marker header. -/
theorem processElement_no_inning (away home gid : String) (st : LoopState)
    (e : Element) (hinn : st.current_inning = none)
    (htop : st.top_inning_pitcher = none)
    (hbot : st.bottom_inning_pitcher = none)
    (hhead : ∀ txt, e = .header txt → map_inning_mark txt = none) :
    (processElement away home gid st e).current_inning = none ∧
    (processElement away home gid st e).top_inning_pitcher = none ∧
    (processElement away home gid st e).bottom_inning_pitcher = none := by
  cases e with
  | header txt =>
    have hm := hhead txt rfl
    simp [processElement, hm, hinn, htop, hbot]
  | table tbl =>
    unfold processElement
    cases hct : classify_table tbl with
    | PITCHING =>
      cases hpa : parse_pitching_announcement tbl <;>
        simp [hct, hpa, hinn, htop, hbot]
    | EVENT => simp [hct, hinn, htop, hbot]
    | INNING => simp [hct, hinn, htop, hbot]
    | UNKNOWN => simp [hct, hinn, htop, hbot]

/-- C8: over any game prefix containing no inning-marker header — in
particular a stream whose pitching-announcement blocks all precede the first
inning marker — the state machine completes without error and leaves both
pitcher slots (and the inning context) unassigned. -/
theorem c8_announcement_before_inning (away home gid : String)
    (elems : List Element)
    (h : ∀ txt, Element.header txt ∈ elems → map_inning_mark txt = none) :
    (parse_playbyplay away home gid elems).top_inning_pitcher = none ∧
    (parse_playbyplay away home gid elems).bottom_inning_pitcher = none ∧
    (parse_playbyplay away home gid elems).current_inning = none := by
  have main : ∀ (l : List Element) (st : LoopState),
      (∀ txt, Element.header txt ∈ l → map_inning_mark txt = none) →
      st.current_inning = none → st.top_inning_pitcher = none →
      st.bottom_inning_pitcher = none →
      (l.foldl (processElement away home gid) st).current_inning = none ∧
      (l.foldl (processElement away home gid) st).top_inning_pitcher = none ∧
      (l.foldl (processElement away home gid) st).bottom_inning_pitcher =
        none := by
    intro l
    induction l with
    | nil => intro st _ hc ht hb; exact ⟨hc, ht, hb⟩
    | cons e t ih =>
      intro st hl hc ht hb
      rw [List.foldl_cons]
      have hstep := processElement_no_inning away home gid st e hc ht hb
        (fun txt he => hl txt (by rw [he]; exact List.mem_cons_self _ _))
      exact ih _ (fun txt hm => hl txt (List.mem_cons_of_mem _ hm))
        hstep.1 hstep.2.1 hstep.2.2
  have res := main elems initLoopState h rfl rfl rfl
  exact ⟨res.2.1, res.2.2, res.1⟩

/-- Witness for `c8_announcement_before_inning`: a one-block stream holding
only a starting-pitcher announcement (whose pitcher id is extractable) —
both slots stay null. -/
theorem c8_announcement_before_inning_witness :
    parse_pitching_announcement c8tbl = some "9" ∧
    ((parse_playbyplay "aw" "hm" "G" [.table c8tbl]).top_inning_pitcher =
        none ∧
      (parse_playbyplay "aw" "hm" "G" [.table c8tbl]).bottom_inning_pitcher =
        none ∧
      (parse_playbyplay "aw" "hm" "G" [.table c8tbl]).current_inning =
        none) :=
  ⟨by decide,
    c8_announcement_before_inning "aw" "hm" "G" [.table c8tbl]
      (by intro txt hm; simp at hm)⟩

/-- C9 counterexample: in the change announcement `c9tbl` (links 田中 before
the arrow, 鈴木 then 佐藤 after it) the id stored into the top pitcher slot
is that of the FIRST link after the arrow (鈴木, id 2), not the LAST
(佐藤, id 3) as the claim states. -/
theorem c9_first_not_last :
    parse_pitching_announcement c9tbl = some "2" ∧
    spec_lastLinkAfterChange c9tbl = some "3" ∧
    (processElement "aw" "hm" "G" ⟨some "1T", some "away", none, none, []⟩
        (.table c9tbl)).top_inning_pitcher = some "2" ∧
    ((some "2" : Option String) ≠ some "3") := by
  refine ⟨by decide, by decide, by decide, by decide⟩

/-- C9 amended: for a pitching-change announcement (no starter keyword), the
extracted pitcher id comes from the FIRST link, in document order, whose
text appears after the change delimiter and whose href yields an id; every
earlier link positioned after the delimiter must have failed id
extraction. -/
theorem c9_change_takes_first (tbl : TableData)
    (h1 : hasSub tbl.text "先発投手" = false)
    (h2 : hasSub tbl.text "投手交代" = true) (pid : String)
    (hp : parse_pitching_announcement tbl = some pid) :
    ∃ pre l post, tbl.links = pre ++ l :: post ∧
      strFind tbl.text.toList ['→'] < strFind tbl.text.toList l.text.toList ∧
      extract_player_id_from_link (some l.href) = some pid ∧
      ∀ l2 ∈ pre,
        strFind tbl.text.toList ['→'] <
            strFind tbl.text.toList l2.text.toList →
        extract_player_id_from_link (some l2.href) = none := by
  simp only [parse_pitching_announcement, h1, Bool.false_eq_true, if_false,
    h2, if_true] at hp
  obtain ⟨pre, l, post, heq, hl, hpre⟩ := findSome_first _ _ _ hp
  by_cases hcond : strFind tbl.text.toList ['→'] <
      strFind tbl.text.toList l.text.toList
  · rw [if_pos hcond] at hl
    refine ⟨pre, l, post, heq, hcond, hl, ?_⟩
    intro l2 hl2 hcond2
    have := hpre l2 hl2
    rwa [if_pos hcond2] at this
  · rw [if_neg hcond] at hl
    cases hl

/-- Witness for `c9_change_takes_first`: applied to the concrete table
`c9tbl` and the extracted id 2. -/
theorem c9_change_takes_first_witness :
    ∃ pre l post, c9tbl.links = pre ++ l :: post ∧
      strFind c9tbl.text.toList ['→'] <
        strFind c9tbl.text.toList l.text.toList ∧
      extract_player_id_from_link (some l.href) = some "2" ∧
      ∀ l2 ∈ pre,
        strFind c9tbl.text.toList ['→'] <
            strFind c9tbl.text.toList l2.text.toList →
        extract_player_id_from_link (some l2.href) = none :=
  c9_change_takes_first c9tbl (by decide) (by decide) "2" (by decide)

/-- Sums distribute over the four-way per-event hit-flag sum. -/
theorem sum_map_four (l : List Event) :
    (l.map (fun e => e.e1b + e.e2b + e.e3b + e.hr)).sum =
    (l.map (·.e1b)).sum + (l.map (·.e2b)).sum + (l.map (·.e3b)).sum +
      (l.map (·.hr)).sum := by
  induction l with
  | nil => rfl
  | cons a t ih => simp [ih]; omega

/-- `updateBattingRow` never changes the identity fields of a row. -/
theorem updateBattingRow_keys (evs : List Event) (gid : String)
    (r : BattingRow) :
    (updateBattingRow evs gid r).game_id = r.game_id ∧
    (updateBattingRow evs gid r).player_id = r.player_id := by
  unfold updateBattingRow
  split_ifs <;> simp

/-- C1: every counter the batting rollup writes for a (game, batter) with
events equals the sum of the matching flag over that batter's events in that
game; total hits is the sum of the four per-event hit-type flags; and
at-bats is plate appearances minus walks, hit-by-pitch and sacrifices. -/
theorem c1_rollup_counters (s : Store) (gid : String) (r : BattingRow)
    (hr : r ∈ (update_batting_stats gid s).batting)
    (hg : r.game_id = gid)
    (he : hasBatEvents s.events gid r.player_id = true) :
    r.pa = (batGroup s.events gid r.player_id).length ∧
    r.b_1b = ((batGroup s.events gid r.player_id).map (·.e1b)).sum ∧
    r.b_2b = ((batGroup s.events gid r.player_id).map (·.e2b)).sum ∧
    r.b_3b = ((batGroup s.events gid r.player_id).map (·.e3b)).sum ∧
    r.b_hr = ((batGroup s.events gid r.player_id).map (·.hr)).sum ∧
    r.b_rbi = ((batGroup s.events gid r.player_id).map (·.rbi)).sum ∧
    r.b_gb = ((batGroup s.events gid r.player_id).map (·.gb)).sum ∧
    r.b_fb = ((batGroup s.events gid r.player_id).map (·.fb)).sum ∧
    r.b_k = ((batGroup s.events gid r.player_id).map (·.k)).sum ∧
    r.b_roe = ((batGroup s.events gid r.player_id).map (·.roe)).sum ∧
    r.b_bb = ((batGroup s.events gid r.player_id).map (·.bb)).sum ∧
    r.b_hbp = ((batGroup s.events gid r.player_id).map (·.hbp)).sum ∧
    r.b_gdp = ((batGroup s.events gid r.player_id).map (·.gdp)).sum ∧
    r.b_sac = ((batGroup s.events gid r.player_id).map (·.sac)).sum ∧
    r.b_h = ((batGroup s.events gid r.player_id).map (fun e => e.e1b + e.e2b + e.e3b + e.hr)).sum ∧
    r.ab = (r.pa : Int) - ((r.b_bb : Int) + (r.b_hbp : Int) + (r.b_sac : Int)) := by
  simp only [update_batting_stats] at hr
  obtain ⟨r0, hr0, hfr⟩ := List.mem_map.mp hr
  have hkeys := updateBattingRow_keys s.events gid r0
  have hg0 : r0.game_id = gid := by
    have hx : (updateBattingRow s.events gid r0).game_id = gid := by
      rw [hfr]; exact hg
    rw [hkeys.1] at hx; exact hx
  have hp0 : r0.player_id = r.player_id := by
    rw [← hfr]; exact hkeys.2.symm
  have hcond : (r0.game_id == gid &&
      hasBatEvents s.events gid r0.player_id) = true := by
    rw [hg0, hp0]
    simp [he]
  have hupd := hfr
  unfold updateBattingRow at hupd
  rw [if_pos hcond] at hupd
  subst hupd
  refine ⟨rfl, rfl, rfl, rfl, rfl, rfl, rfl, rfl, rfl, rfl, rfl, rfl, rfl,
    rfl, ?_, rfl⟩
  exact (sum_map_four _).symm

/-- Witness for `c1_rollup_counters`: the store `wStore` (a single and a walk
for batter B1, spec scenario 3) and the written row `wRowUpd`. -/
theorem c1_rollup_counters_witness :
    wRowUpd.pa = (batGroup wStore.events "G" wRowUpd.player_id).length ∧
    wRowUpd.b_1b = ((batGroup wStore.events "G" wRowUpd.player_id).map (·.e1b)).sum ∧
    wRowUpd.b_2b = ((batGroup wStore.events "G" wRowUpd.player_id).map (·.e2b)).sum ∧
    wRowUpd.b_3b = ((batGroup wStore.events "G" wRowUpd.player_id).map (·.e3b)).sum ∧
    wRowUpd.b_hr = ((batGroup wStore.events "G" wRowUpd.player_id).map (·.hr)).sum ∧
    wRowUpd.b_rbi = ((batGroup wStore.events "G" wRowUpd.player_id).map (·.rbi)).sum ∧
    wRowUpd.b_gb = ((batGroup wStore.events "G" wRowUpd.player_id).map (·.gb)).sum ∧
    wRowUpd.b_fb = ((batGroup wStore.events "G" wRowUpd.player_id).map (·.fb)).sum ∧
    wRowUpd.b_k = ((batGroup wStore.events "G" wRowUpd.player_id).map (·.k)).sum ∧
    wRowUpd.b_roe = ((batGroup wStore.events "G" wRowUpd.player_id).map (·.roe)).sum ∧
    wRowUpd.b_bb = ((batGroup wStore.events "G" wRowUpd.player_id).map (·.bb)).sum ∧
    wRowUpd.b_hbp = ((batGroup wStore.events "G" wRowUpd.player_id).map (·.hbp)).sum ∧
    wRowUpd.b_gdp = ((batGroup wStore.events "G" wRowUpd.player_id).map (·.gdp)).sum ∧
    wRowUpd.b_sac = ((batGroup wStore.events "G" wRowUpd.player_id).map (·.sac)).sum ∧
    wRowUpd.b_h = ((batGroup wStore.events "G" wRowUpd.player_id).map (fun e => e.e1b + e.e2b + e.e3b + e.hr)).sum ∧
    wRowUpd.ab = (wRowUpd.pa : Int) - ((wRowUpd.b_bb : Int) + (wRowUpd.b_hbp : Int) + (wRowUpd.b_sac : Int)) :=
  c1_rollup_counters wStore "G" wRowUpd (by decide) (by decide) (by decide)

/-- C4 counterexample: game G has an event for p2 but none for p1, and p1
has a placeholder row with stale counters (pa = 7).  The rollup runs for G
(it rewrites p2's row, so the output differs from the input), yet p1's row
is left exactly as it was — no zeroed row is written for it. -/
theorem c4_stale_row_left :
    hasBatEvents c4store.events "G" "p1" = false ∧
    c4stale.player_id = "p1" ∧ c4stale.pa = 7 ∧
    updateBattingRow c4store.events "G" c4stale = c4stale ∧
    ((update_batting_stats "G" c4store).batting).head? = some c4stale ∧
    (update_batting_stats "G" c4store).batting ≠ c4store.batting := by
  refine ⟨by decide, by decide, by decide, by decide, by decide, by decide⟩

/-- C4 amended: the rollup updates only (game, player) keys that have at
least one qualifying event; a batter or pitcher whose placeholder row exists
but who has zero qualifying events receives no write at all — the row keeps
its previous values (it is left un-updated rather than zeroed). -/
theorem c4_zero_event_rows_not_written :
    (∀ (evs : List Event) (gid : String) (r : BattingRow),
        hasBatEvents evs gid r.player_id = false →
        updateBattingRow evs gid r = r) ∧
    (∀ (evs : List Event) (gid : String) (r : PitchingRow),
        hasPitEvents evs gid r.player_id = false →
        updatePitchingRow evs gid r = r) ∧
    (∀ (gid : String) (s : Store) (r : BattingRow), r ∈ s.batting →
        hasBatEvents s.events gid r.player_id = false →
        r ∈ (update_batting_stats gid s).batting) := by
  refine ⟨?_, ?_, ?_⟩
  · intro evs gid r h
    simp [updateBattingRow, h]
  · intro evs gid r h
    simp [updatePitchingRow, h]
  · intro gid s r hmem h
    have hid : updateBattingRow s.events gid r = r := by
      simp [updateBattingRow, h]
    simp only [update_batting_stats]
    exact List.mem_map.mpr ⟨r, hmem, hid⟩

/-- Witness for `c4_zero_event_rows_not_written`: its first conjunct applied
to the stale row `c4stale` and an empty event list. -/
theorem c4_zero_event_rows_not_written_witness :
    updateBattingRow [] "G" c4stale = c4stale :=
  c4_zero_event_rows_not_written.1 [] "G" c4stale (by decide)

/-- Re-applying an idempotent function under `map` changes nothing. -/
theorem map_self_idem {α : Type} (f : α → α) (hf : ∀ a, f (f a) = f a)
    (l : List α) : (l.map f).map f = l.map f := by
  induction l with
  | nil => rfl
  | cons a t ih => simp only [List.map_cons, ih, hf]

/-- Replacing a game's events twice with the same list is the same as
replacing them once. -/
theorem upsert_idem (E evs : List Event) (gid : String)
    (h : ∀ e ∈ evs, e.game_id = gid) :
    upsert_events (upsert_events E evs) evs = upsert_events E evs := by
  cases evs with
  | nil => rfl
  | cons e rest =>
    simp only [upsert_events]
    rw [List.filter_append, List.filter_filter]
    have hnil : (e :: rest).filter (fun x => !(x.game_id == e.game_id)) =
        [] := by
      rw [List.filter_eq_nil_iff]
      intro a ha
      have hag : a.game_id = gid := h a ha
      have heg : e.game_id = gid := h e (List.mem_cons_self _ _)
      simp [hag, heg]
    rw [hnil, List.append_nil]
    simp only [Bool.and_self]

/-- The batting-row update is idempotent for a fixed event table. -/
theorem updateBattingRow_idem (E : List Event) (gid : String)
    (r : BattingRow) :
    updateBattingRow E gid (updateBattingRow E gid r) =
      updateBattingRow E gid r := by
  by_cases hc : (r.game_id == gid && hasBatEvents E gid r.player_id) = true
  · simp [updateBattingRow, hc]
  · simp [updateBattingRow, hc]

/-- The pitching-row update is idempotent for a fixed event table. -/
theorem updatePitchingRow_idem (E : List Event) (gid : String)
    (r : PitchingRow) :
    updatePitchingRow E gid (updatePitchingRow E gid r) =
      updatePitchingRow E gid r := by
  by_cases hc : (r.game_id == gid && hasPitEvents E gid r.player_id) = true
  · simp [updatePitchingRow, hc]
  · simp [updatePitchingRow, hc]

/-- C2 amended: ingesting the same game's parsed events twice yields exactly
the same store as ingesting them once — the event write deletes the game's
events before inserting the new set, and the rollups overwrite summary
counters with absolutely computed sums, so re-ingestion cannot
double-count. -/
theorem c2_reingest_idempotent (s : Store) (gid : String) (evs : List Event)
    (h : ∀ e ∈ evs, e.game_id = gid) :
    ingest_game gid evs (ingest_game gid evs s) = ingest_game gid evs s := by
  have hE := upsert_idem s.events evs gid h
  simp only [ingest_game, update_batting_stats, update_pitching_stats]
  rw [hE]
  congr 1
  · exact map_self_idem _ (updateBattingRow_idem _ gid) s.batting
  · exact map_self_idem _ (updatePitchingRow_idem _ gid) s.pitching

/-- Witness for `c2_reingest_idempotent`: re-ingesting game G's single-event
list into the concrete store `c2store`. -/
theorem c2_reingest_idempotent_witness :
    ingest_game "G" [c2ev] (ingest_game "G" [c2ev] c2store) =
      ingest_game "G" [c2ev] c2store :=
  c2_reingest_idempotent c2store "G" [c2ev] (by decide)

/-- C2 counterexample: the rollup does not replace the full summary record
set of the re-ingested game.  After ingesting game G (whose event list names
only p2), p1's stale summary row survives untouched with pa = 5, even though
p1 has no events in the freshly written event set — under replace-the-full-
set semantics that row could not persist with stale counters. -/
theorem c2_summary_set_not_replaced :
    c2stale ∈ (ingest_game "G" [c2ev] c2store).batting ∧
    c2stale.game_id = "G" ∧ c2stale.pa = 5 ∧
    batGroup (ingest_game "G" [c2ev] c2store).events "G"
      c2stale.player_id = [] := by
  refine ⟨by decide, by decide, by decide, by decide⟩

end Yakyuu
